import Mathlib

/-!
Verification development for the ad-revenue dashboard core
(src/deploy-2.py): the metric-computation pipeline
(calculate_all_metrics / calculate_single_dept_metrics) and the
detail-row selector (get_metric_detail_data).

Embedding conventions:
* a pandas row becomes a Tx record; the DataFrame becomes a List Tx;
* column names are translated: 所属账期 -> period, 3级部门 -> department,
  国家 -> country, 广告类型 -> ad_type, 到账金额_gbp -> amount,
  业务属性 -> business_attribute, 销售人工号 -> salesperson_id;
* monetary amounts are exact rationals; the pandas round(2) becomes
  round2 (round to the nearest cent, ties toward the upper value);
* Series.sum becomes sumAmount, Series.nunique becomes nunique
  (length of deduplicated id list);
* boolean masks become Bool-valued predicates and df[mask] becomes
  List.filter.
-/

structure Tx where
  period : Int
  department : String
  country : String
  ad_type : String
  amount : ℚ
  business_attribute : String
  salesperson_id : Int
deriving DecidableEq

set_option maxRecDepth 8000

/-- Round a rational to the nearest cent (models pandas .round(2) on
monetary values, which the source applies after every aggregation).
Stated with the executable Rat.floor so that concrete instances
evaluate; ratFloor_eq below bridges to the mathematical floor. -/
def round2 (q : ℚ) : ℚ := ((q * 100 + 1 / 2).floor : ℚ) / 100

/-- Sum of the amount column (models df[...]['到账金额_gbp'].sum()). -/
def sumAmount : List Tx → ℚ
  | [] => 0
  | t :: ts => t.amount + sumAmount ts

/-- Number of distinct salesperson ids (models ['销售人工号'].nunique()). -/
def nunique (l : List Tx) : ℕ := (l.map Tx.salesperson_id).dedup.length

-- Global constants of the source (section 1 of deploy-2.py).

def DEPARTMENTS_COUNTRY : List String :=
  ["AU", "NZ", "US", "CA", "UK", "EU", "JP", "KP"]

def ALL_METRIC_ORDER : List String :=
  ["广告收入", "广告收入——同业收入", "广告收入——异业收入",
   "广告部：广告收入", "广告部—同业收入", "广告部—异业收入",
   "国家：广告收入", "国家-同业收入", "国家-异业收入",
   "国家BD人数（实际为有售卖的BD）",
   "广告部BD人数",
   "全球BD人数",
   "全球BD：人均广告收入",
   "广告部BD：人均广告收入",
   "国家BD：人均广告收入"]

-- calculate_single_dept_metrics: the per-department intermediates,
-- each named after the local variable it embeds.

/-- dept_condition: (所属账期 == target) & (3级部门 == dept_code). -/
def dept_condition (dc : String) (p : Int) : Tx → Bool :=
  fun t => (t.period == p) && (t.department == dc)

/-- dept_revenue_total = df[dept_condition]['到账金额_gbp'].sum().round(2). -/
def dept_revenue_total (dc : String) (df : List Tx) (p : Int) : ℚ :=
  round2 (sumAmount (df.filter (dept_condition dc p)))

/-- dept_core_revenue: same filter plus 广告类型 == 同业广告. -/
def dept_core_revenue (dc : String) (df : List Tx) (p : Int) : ℚ :=
  round2 (sumAmount (df.filter (fun t => dept_condition dc p t && (t.ad_type == "同业广告"))))

/-- dept_noncore_revenue: same filter plus 广告类型 == 异业广告. -/
def dept_noncore_revenue (dc : String) (df : List Tx) (p : Int) : ℚ :=
  round2 (sumAmount (df.filter (fun t => dept_condition dc p t && (t.ad_type == "异业广告"))))

/-- dept_aggregated_revenue = (dept_revenue_total * 2).round(2). -/
def dept_aggregated_revenue (dc : String) (df : List Tx) (p : Int) : ℚ :=
  round2 (dept_revenue_total dc df p * 2)

/-- dept_count: distinct salespersons under dept_condition plus
业务属性 == target. -/
def dept_count (dc : String) (df : List Tx) (p : Int) (b : String) : ℕ :=
  nunique (df.filter (fun t => dept_condition dc p t && (t.business_attribute == b)))

/-- ad_bd_condition: (所属账期 == target) & (3级部门 == AD) & (国家 == dept_code). -/
def ad_bd_condition (dc : String) (p : Int) : Tx → Bool :=
  fun t => ((t.period == p) && (t.department == "AD")) && (t.country == dc)

/-- dept_ad_bd_count: distinct salespersons under ad_bd_condition. -/
def dept_ad_bd_count (dc : String) (df : List Tx) (p : Int) : ℕ :=
  nunique (df.filter (ad_bd_condition dc p))

/-- dept_total_bd_count = dept_count + dept_ad_bd_count. -/
def dept_total_bd_count (dc : String) (df : List Tx) (p : Int) (b : String) : ℕ :=
  dept_count dc df p b + dept_ad_bd_count dc df p

/-- dept_global_bd_avg_revenue with the zero-denominator guard. -/
def dept_global_bd_avg_revenue (dc : String) (df : List Tx) (p : Int) (b : String) : ℚ :=
  if dept_total_bd_count dc df p b > 0 then
    dept_aggregated_revenue dc df p / (dept_total_bd_count dc df p b : ℚ)
  else 0

/-- dept_ad_bd_avg_revenue with the zero-denominator guard. -/
def dept_ad_bd_avg_revenue (dc : String) (df : List Tx) (p : Int) : ℚ :=
  if dept_ad_bd_count dc df p > 0 then
    dept_revenue_total dc df p / (dept_ad_bd_count dc df p : ℚ)
  else 0

/-- dept_country_bd_avg_revenue with the zero-denominator guard. -/
def dept_country_bd_avg_revenue (dc : String) (df : List Tx) (p : Int) (b : String) : ℚ :=
  if dept_count dc df p b > 0 then
    dept_revenue_total dc df p / (dept_count dc df p b : ℚ)
  else 0

/-- Models the Python idiom (x.round(2) if x else 0) used on the three
productivity quotients when they are written into the metric dict. -/
def finalizeAvg (q : ℚ) : ℚ := if q = 0 then 0 else round2 q

/-- calculate_single_dept_metrics: the per-department metric dict, as an
association list in insertion order, keys prefixed with the department
code exactly as in the source. -/
def calculate_single_dept_metrics (dc : String) (df : List Tx) (p : Int) (b : String) :
    List (String × ℚ) :=
  [(dc ++ "_广告部：广告收入", dept_revenue_total dc df p),
   (dc ++ "_广告部—同业收入", dept_core_revenue dc df p),
   (dc ++ "_广告部—异业收入", dept_noncore_revenue dc df p),
   (dc ++ "_国家：广告收入", dept_revenue_total dc df p),
   (dc ++ "_国家-同业收入", dept_core_revenue dc df p),
   (dc ++ "_国家-异业收入", dept_noncore_revenue dc df p),
   (dc ++ "_广告收入", dept_aggregated_revenue dc df p),
   (dc ++ "_广告收入——同业收入", round2 (dept_core_revenue dc df p * 2)),
   (dc ++ "_广告收入——异业收入", round2 (dept_noncore_revenue dc df p * 2)),
   (dc ++ "_国家BD人数（实际为有售卖的BD）", (dept_count dc df p b : ℚ)),
   (dc ++ "_广告部BD人数", (dept_ad_bd_count dc df p : ℚ)),
   (dc ++ "_全球BD人数", (dept_total_bd_count dc df p b : ℚ)),
   (dc ++ "_全球BD：人均广告收入", finalizeAvg (dept_global_bd_avg_revenue dc df p b)),
   (dc ++ "_广告部BD：人均广告收入", finalizeAvg (dept_ad_bd_avg_revenue dc df p)),
   (dc ++ "_国家BD：人均广告收入", finalizeAvg (dept_country_bd_avg_revenue dc df p b))]

-- calculate_all_metrics: the global intermediates.

/-- target_period_condition: 所属账期 == target. -/
def target_period_condition (p : Int) : Tx → Bool := fun t => t.period == p

/-- non_ad_condition_total: period filter plus 3级部门 != AD. -/
def non_ad_condition_total (p : Int) : Tx → Bool :=
  fun t => target_period_condition p t && !(t.department == "AD")

/-- 国家_广告收入_总计: non-AD revenue in the target period. -/
def country_revenue_total (df : List Tx) (p : Int) : ℚ :=
  round2 (sumAmount (df.filter (non_ad_condition_total p)))

/-- 同业收入_总计: non-AD core revenue. -/
def country_core_revenue_total (df : List Tx) (p : Int) : ℚ :=
  round2 (sumAmount (df.filter (fun t => non_ad_condition_total p t && (t.ad_type == "同业广告"))))

/-- 异业收入_总计: non-AD noncore revenue. -/
def country_noncore_revenue_total (df : List Tx) (p : Int) : ℚ :=
  round2 (sumAmount (df.filter (fun t => non_ad_condition_total p t && (t.ad_type == "异业广告"))))

/-- country_bd_count_condition: period, 3级部门 isin DEPARTMENTS, and
业务属性 == target. -/
def country_bd_count_condition (p : Int) (b : String) (depts : List String) : Tx → Bool :=
  fun t => (target_period_condition p t && depts.contains t.department)
    && (t.business_attribute == b)

/-- 国家BD人数_总计. -/
def country_bd_count_total (df : List Tx) (p : Int) (b : String) (depts : List String) : ℕ :=
  nunique (df.filter (country_bd_count_condition p b depts))

/-- ad_condition: period filter plus 3级部门 == AD. -/
def ad_condition (p : Int) : Tx → Bool :=
  fun t => target_period_condition p t && (t.department == "AD")

/-- 广告部_广告收入_总计. -/
def ad_revenue_total (df : List Tx) (p : Int) : ℚ :=
  round2 (sumAmount (df.filter (ad_condition p)))

/-- 广告部_同业收入_总计. -/
def ad_core_revenue_total (df : List Tx) (p : Int) : ℚ :=
  round2 (sumAmount (df.filter (fun t => ad_condition p t && (t.ad_type == "同业广告"))))

/-- 广告部_异业收入_总计. -/
def ad_noncore_revenue_total (df : List Tx) (p : Int) : ℚ :=
  round2 (sumAmount (df.filter (fun t => ad_condition p t && (t.ad_type == "异业广告"))))

/-- 广告部BD人数_总计. -/
def ad_bd_count_total (df : List Tx) (p : Int) : ℕ :=
  nunique (df.filter (ad_condition p))

/-- 广告收入_总计 = (广告部 + 国家).round(2). -/
def total_revenue_global (df : List Tx) (p : Int) : ℚ :=
  round2 (ad_revenue_total df p + country_revenue_total df p)

/-- 广告收入_同业收入_总计. -/
def total_core_revenue_global (df : List Tx) (p : Int) : ℚ :=
  round2 (ad_core_revenue_total df p + country_core_revenue_total df p)

/-- 广告收入_异业收入_总计. -/
def total_noncore_revenue_global (df : List Tx) (p : Int) : ℚ :=
  round2 (ad_noncore_revenue_total df p + country_noncore_revenue_total df p)

/-- 全球BD人数_总计 = 国家BD人数_总计 + 广告部BD人数_总计. -/
def total_bd_count_global (df : List Tx) (p : Int) (b : String) (depts : List String) : ℕ :=
  country_bd_count_total df p b depts + ad_bd_count_total df p

/-- 全球BD_人均广告收入_总计 with the zero-denominator guard. -/
def global_bd_avg_revenue_total (df : List Tx) (p : Int) (b : String) (depts : List String) : ℚ :=
  if total_bd_count_global df p b depts > 0 then
    total_revenue_global df p / (total_bd_count_global df p b depts : ℚ)
  else 0

/-- 广告部BD_人均广告收入_总计 with the zero-denominator guard. -/
def ad_bd_avg_revenue_total (df : List Tx) (p : Int) : ℚ :=
  if ad_bd_count_total df p > 0 then
    ad_revenue_total df p / (ad_bd_count_total df p : ℚ)
  else 0

/-- 国家BD_人均广告收入_总计 with the zero-denominator guard. -/
def country_bd_avg_revenue_total (df : List Tx) (p : Int) (b : String) (depts : List String) : ℚ :=
  if country_bd_count_total df p b depts > 0 then
    country_revenue_total df p / (country_bd_count_total df p b depts : ℚ)
  else 0

/-- The 15 global entries of data_values, in source order. -/
def global_metrics (df : List Tx) (p : Int) (b : String) (depts : List String) :
    List (String × ℚ) :=
  [("广告收入", total_revenue_global df p),
   ("广告收入——同业收入", total_core_revenue_global df p),
   ("广告收入——异业收入", total_noncore_revenue_global df p),
   ("广告部：广告收入", ad_revenue_total df p),
   ("广告部—同业收入", ad_core_revenue_total df p),
   ("广告部—异业收入", ad_noncore_revenue_total df p),
   ("国家：广告收入", country_revenue_total df p),
   ("国家-同业收入", country_core_revenue_total df p),
   ("国家-异业收入", country_noncore_revenue_total df p),
   ("国家BD人数（实际为有售卖的BD）", (country_bd_count_total df p b depts : ℚ)),
   ("广告部BD人数", (ad_bd_count_total df p : ℚ)),
   ("全球BD人数", (total_bd_count_global df p b depts : ℚ)),
   ("全球BD：人均广告收入", finalizeAvg (global_bd_avg_revenue_total df p b depts)),
   ("广告部BD：人均广告收入", finalizeAvg (ad_bd_avg_revenue_total df p)),
   ("国家BD：人均广告收入", finalizeAvg (country_bd_avg_revenue_total df p b depts))]

/-- data_values: the global dict updated with every per-department dict
(keys are disjoint, so list concatenation models dict.update). -/
def data_values (df : List Tx) (p : Int) (b : String) (depts : List String) :
    List (String × ℚ) :=
  global_metrics df p b depts
    ++ depts.foldr (fun d acc => calculate_single_dept_metrics d df p b ++ acc) []

/-- global_new_metrics: the five names the source appends to final_order
a second time (they already occur in ALL_METRIC_ORDER). -/
def global_new_metrics : List String :=
  ["广告部BD人数", "全球BD人数", "全球BD：人均广告收入",
   "广告部BD：人均广告收入", "国家BD：人均广告收入"]

/-- final_order as built in step 4 of calculate_all_metrics. -/
def final_order (depts ord : List String) : List String :=
  (ord ++ global_new_metrics)
    ++ depts.foldr
      (fun d acc =>
        (ord.map (fun n => d ++ "_" ++ n)
          ++ global_new_metrics.map (fun n => d ++ "_" ++ n)) ++ acc) []

/-- Bool test of List Char prefixes, used for the startswith check. -/
def charsIsPre (pre s : List Char) : Bool :=
  match pre, s with
  | [], _ => true
  | _ :: _, [] => false
  | a :: as_, c :: cs => (a == c) && charsIsPre as_ cs

/-- startswith on strings. -/
def startsWithStr (s pre : String) : Bool := charsIsPre pre.data s.data

/-- map_region of step 5: the first department code whose underscored
form starts the compound key, otherwise 全球. -/
def map_region (depts : List String) (name : String) : String :=
  match depts.find? (fun d => startsWithStr name (d ++ "_")) with
  | some d => d
  | none => "全球"

/-- Fuel-driven worker for stripAll; the fuel starts at the length of the
string, which each step strictly decreases, so it never runs out. -/
def stripFuel (pat : List Char) : ℕ → List Char → List Char
  | 0, s => s
  | _ + 1, [] => []
  | n + 1, c :: cs =>
    if !pat.isEmpty && charsIsPre pat (c :: cs) then
      stripFuel pat n ((c :: cs).drop pat.length)
    else c :: stripFuel pat n cs

/-- Remove every occurrence of pat, scanning left to right (models the
Python str.replace(pat, '') used by clean_metric_name). -/
def stripAll (pat s : String) : String :=
  ⟨stripFuel pat.data s.data.length s.data⟩

/-- clean_metric_name of step 6. -/
def clean_metric_name (region name : String) : String :=
  if region = "全球" then name else stripAll (region ++ "_") name

/-- One row of the final summary DataFrame: 地区, 指标名称, 总计金额_gbp. -/
structure SummaryRow where
  region : String
  metric : String
  value : ℚ
deriving DecidableEq

/-- calculate_all_metrics: the summary table, one row per final_order
entry, with the region column and cleaned metric name of steps 5 and 6
and the value data_values.get(metric, 0). -/
def calculate_all_metrics (df : List Tx) (p : Int) (b : String)
    (depts ord : List String) : List SummaryRow :=
  (final_order depts ord).map (fun n =>
    { region := map_region depts n,
      metric := clean_metric_name (map_region depts n) n,
      value := ((data_values df p b depts).lookup n).getD 0 })

/-- The value the summary table reports for a (region, metric) pair:
the value of the first matching row, 0 when absent. -/
def summaryLookup (rows : List SummaryRow) (r m : String) : ℚ :=
  ((rows.find? (fun row => row.region == r && row.metric == m)).map
    SummaryRow.value).getD 0

-- get_metric_detail_data: the detail-row selector (section 3 of the
-- source).

/-- Does sub occur as a contiguous substring of s (character lists)?
Models the Python membership test sub in s. -/
def charsOccur (sub : List Char) : List Char → Bool
  | [] => sub.isEmpty
  | c :: cs => charsIsPre sub (c :: cs) || charsOccur sub cs

/-- Substring membership on strings: strContains s sub means sub in s. -/
def strContains (s sub : String) : Bool := charsOccur sub.data s.data

/-- revenue_filter: narrows a mask by 广告类型 when the metric name
mentions 同业收入 or 异业收入, as in the inner helper of
get_metric_detail_data. -/
def revenue_filter (cond : Tx → Bool) (metric_name : String) : Tx → Bool :=
  if strContains metric_name "同业收入" then
    fun t => cond t && (t.ad_type == "同业广告")
  else if strContains metric_name "异业收入" then
    fun t => cond t && (t.ad_type == "异业广告")
  else cond

/-- get_metric_detail_data: selects the detail rows for a chosen
(metric_name, region) pair; the dispatch mirrors the source branch for
branch, with the unmatched fall-through returning the empty table. -/
def get_metric_detail_data (df : List Tx) (metric_name region : String)
    (target_period : Int) (target_biz_attr : String) : List Tx :=
  if region = "全球" then
    if metric_name ∈ ALL_METRIC_ORDER.take 9 then
      if metric_name ∈ ["广告收入", "广告收入——同业收入", "广告收入——异业收入"] then
        df.filter (fun t =>
          (t.period == target_period) && revenue_filter (fun _ => true) metric_name t)
      else if metric_name ∈ ["广告部：广告收入", "广告部—同业收入", "广告部—异业收入"] then
        df.filter (revenue_filter
          (fun t => (t.period == target_period) && (t.department == "AD")) metric_name)
      else if metric_name ∈ ["国家：广告收入", "国家-同业收入", "国家-异业收入"] then
        df.filter (revenue_filter
          (fun t => (t.period == target_period) && !(t.department == "AD")) metric_name)
      else []
    else if metric_name ∈ ["国家BD人数（实际为有售卖的BD）", "全球BD人数", "广告部BD人数"] then
      if metric_name = "广告部BD人数" then
        df.filter (fun t => (t.period == target_period) && (t.department == "AD"))
      else if metric_name = "国家BD人数（实际为有售卖的BD）" then
        df.filter (fun t =>
          ((t.period == target_period) && DEPARTMENTS_COUNTRY.contains t.department)
            && (t.business_attribute == target_biz_attr))
      else if metric_name = "全球BD人数" then
        df.filter (fun t =>
          ((t.period == target_period) && (t.department == "AD"))
            || (((t.period == target_period) && DEPARTMENTS_COUNTRY.contains t.department)
              && (t.business_attribute == target_biz_attr)))
      else []
    else if metric_name ∈ ["全球BD：人均广告收入", "广告部BD：人均广告收入", "国家BD：人均广告收入"] then
      df.filter (fun t => t.period == target_period)
    else []
  else
    if metric_name ∈ ALL_METRIC_ORDER.take 9 then
      df.filter (revenue_filter
        (fun t => (t.period == target_period) && (t.department == region)) metric_name)
    else if metric_name = "国家BD人数（实际为有售卖的BD）" then
      df.filter (fun t =>
        ((t.period == target_period) && (t.department == region))
          && (t.business_attribute == target_biz_attr))
    else if metric_name = "广告部BD人数" then
      df.filter (fun t =>
        ((t.period == target_period) && (t.department == "AD")) && (t.country == region))
    else if metric_name = "全球BD人数" then
      df.filter (fun t =>
        (((t.period == target_period) && (t.department == "AD")) && (t.country == region))
          || ((t.period == target_period) && (t.department == region)))
    else if metric_name ∈ ["全球BD：人均广告收入", "广告部BD：人均广告收入", "国家BD：人均广告收入"] then
      df.filter (fun t => (t.period == target_period) && (t.department == region))
    else []

-- The two concrete transactions used by the witness and counterexample
-- instances: the single-AU-transaction scenario of the spec and the
-- AD-department transaction attributed to JP.

def txAU : Tx := ⟨202509, "AU", "AU", "同业广告", 100, "外卖BD", 1⟩

def txJP : Tx := ⟨202509, "AD", "JP", "同业广告", 50, "外卖BD", 2⟩

-- Arithmetic lemmas about round2 and cent-valued rationals.

/-- The executable Rat.floor agrees with the mathematical floor. -/
theorem ratFloor_eq (q : ℚ) : (Rat.floor q : ℤ) = ⌊q⌋ := by
  rw [Rat.floor_def', Rat.floor_def]

/-- round2 in terms of the mathematical floor. -/
theorem round2_def' (q : ℚ) : round2 q = (⌊q * 100 + 1 / 2⌋ : ℚ) / 100 := by
  rw [round2, ratFloor_eq]

/-- A rational is a whole number of cents. -/
def IsCent (q : ℚ) : Prop := ∃ n : ℤ, q = n / 100

theorem isCent_zero : IsCent 0 := ⟨0, by norm_num⟩

theorem isCent_add {a b : ℚ} (ha : IsCent a) (hb : IsCent b) : IsCent (a + b) := by
  obtain ⟨n, rfl⟩ := ha
  obtain ⟨m, rfl⟩ := hb
  exact ⟨n + m, by push_cast; ring⟩

theorem isCent_two_mul {a : ℚ} (ha : IsCent a) : IsCent (a * 2) := by
  obtain ⟨n, rfl⟩ := ha
  exact ⟨2 * n, by push_cast; ring⟩

/-- Rounding to the nearest cent fixes cent values. -/
theorem round2_isCent {q : ℚ} (h : IsCent q) : round2 q = q := by
  obtain ⟨n, rfl⟩ := h
  rw [round2_def']
  have h100 : ((n : ℚ) / 100) * 100 = (n : ℚ) := by field_simp
  have hhalf : ⌊(1 / 2 : ℚ)⌋ = 0 := by
    rw [Int.floor_eq_zero_iff]
    constructor <;> norm_num
  rw [h100, Int.floor_int_add, hhalf, add_zero]

/-- round2 always produces a cent value. -/
theorem isCent_round2 (q : ℚ) : IsCent (round2 q) := ⟨Rat.floor (q * 100 + 1 / 2), rfl⟩

/-- Doubling a cent value then rounding again is exact; this is the
identity behind the country-case aggregate metrics. -/
theorem round2_double (s : ℚ) : round2 (round2 s * 2) = 2 * round2 s := by
  rw [round2_isCent (isCent_two_mul (isCent_round2 s))]
  ring

/-- Sums of cent-valued amounts are cent-valued. -/
theorem isCent_sumAmount {l : List Tx} (h : ∀ t ∈ l, IsCent t.amount) :
    IsCent (sumAmount l) := by
  induction l with
  | nil => exact isCent_zero
  | cons a l ih =>
    exact isCent_add (h a (List.mem_cons_self a l))
      (ih (fun t ht => h t (List.mem_cons_of_mem a ht)))

/-- Every amount of the table is a whole number of cents: the load-time
invariant established by the to_numeric/fillna/round(2) cleaning step. -/
def CentTable (df : List Tx) : Prop := ∀ t ∈ df, IsCent t.amount

theorem isCent_sum_filter {df : List Tx} (hc : CentTable df) (P : Tx → Bool) :
    IsCent (sumAmount (df.filter P)) :=
  isCent_sumAmount (fun t ht => hc t (List.mem_of_mem_filter ht))

-- List lemmas about filters and sums.

/-- Splitting a filtered sum along a second Bool predicate. -/
theorem sum_filter_split (P Q : Tx → Bool) (l : List Tx) :
    sumAmount (l.filter fun t => P t && Q t)
      + sumAmount (l.filter fun t => P t && !Q t)
      = sumAmount (l.filter P) := by
  induction l with
  | nil => simp [sumAmount]
  | cons a l ih =>
    cases hP : P a <;> cases hQ : Q a <;>
      simp [List.filter_cons, hP, hQ, sumAmount, ← ih] <;> ring

/-- Filtering by a predicate that implies the period test is unaffected
by pre-restricting the table to the target period. -/
theorem filter_period_absorb {p : Int} (q : Tx → Bool)
    (h : ∀ t, q t = true → (t.period == p) = true) (df : List Tx) :
    (df.filter (fun t => t.period == p)).filter q = df.filter q := by
  induction df with
  | nil => rfl
  | cons a l ih =>
    by_cases hq : q a = true
    · have hp : (a.period == p) = true := h a hq
      simp [List.filter_cons, hp, hq, ih]
    · rw [Bool.not_eq_true] at hq
      cases hp : (a.period == p) <;> simp [List.filter_cons, hp, hq, ih]

/-- Whatever ad-type narrowing revenue_filter adds, a selected row still
satisfies the underlying mask. -/
theorem revenue_filter_imp (cond : Tx → Bool) (m : String) (t : Tx)
    (h : revenue_filter cond m t = true) : cond t = true := by
  unfold revenue_filter at h
  split_ifs at h
  · simp only [Bool.and_eq_true] at h
    exact h.1
  · simp only [Bool.and_eq_true] at h
    exact h.1
  · exact h

-- Absorption lemmas: every aggregation mask of the engine begins with
-- the target-period test, so pre-restricting the table to the target
-- period changes nothing.

theorem dept_revenue_total_absorb (dc : String) (df : List Tx) (p : Int) :
    dept_revenue_total dc (df.filter (fun t => t.period == p)) p
      = dept_revenue_total dc df p := by
  rw [dept_revenue_total, dept_revenue_total, filter_period_absorb]
  intro t ht
  simp only [dept_condition, Bool.and_eq_true] at ht
  exact ht.1

theorem dept_core_revenue_absorb (dc : String) (df : List Tx) (p : Int) :
    dept_core_revenue dc (df.filter (fun t => t.period == p)) p
      = dept_core_revenue dc df p := by
  rw [dept_core_revenue, dept_core_revenue, filter_period_absorb]
  intro t ht
  simp only [dept_condition, Bool.and_eq_true] at ht
  exact ht.1.1

theorem dept_noncore_revenue_absorb (dc : String) (df : List Tx) (p : Int) :
    dept_noncore_revenue dc (df.filter (fun t => t.period == p)) p
      = dept_noncore_revenue dc df p := by
  rw [dept_noncore_revenue, dept_noncore_revenue, filter_period_absorb]
  intro t ht
  simp only [dept_condition, Bool.and_eq_true] at ht
  exact ht.1.1

theorem dept_count_absorb (dc : String) (df : List Tx) (p : Int) (b : String) :
    dept_count dc (df.filter (fun t => t.period == p)) p b = dept_count dc df p b := by
  rw [dept_count, dept_count, filter_period_absorb]
  intro t ht
  simp only [dept_condition, Bool.and_eq_true] at ht
  exact ht.1.1

theorem dept_ad_bd_count_absorb (dc : String) (df : List Tx) (p : Int) :
    dept_ad_bd_count dc (df.filter (fun t => t.period == p)) p
      = dept_ad_bd_count dc df p := by
  rw [dept_ad_bd_count, dept_ad_bd_count, filter_period_absorb]
  intro t ht
  simp only [ad_bd_condition, Bool.and_eq_true] at ht
  exact ht.1.1

theorem country_revenue_total_absorb (df : List Tx) (p : Int) :
    country_revenue_total (df.filter (fun t => t.period == p)) p
      = country_revenue_total df p := by
  rw [country_revenue_total, country_revenue_total, filter_period_absorb]
  intro t ht
  simp only [non_ad_condition_total, target_period_condition, Bool.and_eq_true] at ht
  exact ht.1

theorem country_core_revenue_total_absorb (df : List Tx) (p : Int) :
    country_core_revenue_total (df.filter (fun t => t.period == p)) p
      = country_core_revenue_total df p := by
  rw [country_core_revenue_total, country_core_revenue_total, filter_period_absorb]
  intro t ht
  simp only [non_ad_condition_total, target_period_condition, Bool.and_eq_true] at ht
  exact ht.1.1

theorem country_noncore_revenue_total_absorb (df : List Tx) (p : Int) :
    country_noncore_revenue_total (df.filter (fun t => t.period == p)) p
      = country_noncore_revenue_total df p := by
  rw [country_noncore_revenue_total, country_noncore_revenue_total, filter_period_absorb]
  intro t ht
  simp only [non_ad_condition_total, target_period_condition, Bool.and_eq_true] at ht
  exact ht.1.1

theorem country_bd_count_total_absorb (df : List Tx) (p : Int) (b : String)
    (depts : List String) :
    country_bd_count_total (df.filter (fun t => t.period == p)) p b depts
      = country_bd_count_total df p b depts := by
  rw [country_bd_count_total, country_bd_count_total, filter_period_absorb]
  intro t ht
  simp only [country_bd_count_condition, target_period_condition, Bool.and_eq_true] at ht
  exact ht.1.1

theorem ad_revenue_total_absorb (df : List Tx) (p : Int) :
    ad_revenue_total (df.filter (fun t => t.period == p)) p = ad_revenue_total df p := by
  rw [ad_revenue_total, ad_revenue_total, filter_period_absorb]
  intro t ht
  simp only [ad_condition, target_period_condition, Bool.and_eq_true] at ht
  exact ht.1

theorem ad_core_revenue_total_absorb (df : List Tx) (p : Int) :
    ad_core_revenue_total (df.filter (fun t => t.period == p)) p
      = ad_core_revenue_total df p := by
  rw [ad_core_revenue_total, ad_core_revenue_total, filter_period_absorb]
  intro t ht
  simp only [ad_condition, target_period_condition, Bool.and_eq_true] at ht
  exact ht.1.1

theorem ad_noncore_revenue_total_absorb (df : List Tx) (p : Int) :
    ad_noncore_revenue_total (df.filter (fun t => t.period == p)) p
      = ad_noncore_revenue_total df p := by
  rw [ad_noncore_revenue_total, ad_noncore_revenue_total, filter_period_absorb]
  intro t ht
  simp only [ad_condition, target_period_condition, Bool.and_eq_true] at ht
  exact ht.1.1

theorem ad_bd_count_total_absorb (df : List Tx) (p : Int) :
    ad_bd_count_total (df.filter (fun t => t.period == p)) p = ad_bd_count_total df p := by
  rw [ad_bd_count_total, ad_bd_count_total, filter_period_absorb]
  intro t ht
  simp only [ad_condition, target_period_condition, Bool.and_eq_true] at ht
  exact ht.1

/-- The full metric dict is unchanged by pre-restricting the table to the
target period. -/
theorem data_values_period_absorb (df : List Tx) (p : Int) (b : String)
    (depts : List String) :
    data_values (df.filter (fun t => t.period == p)) p b depts
      = data_values df p b depts := by
  unfold data_values
  congr 1
  · simp only [global_metrics, total_revenue_global, total_core_revenue_global,
      total_noncore_revenue_global, total_bd_count_global, global_bd_avg_revenue_total,
      ad_bd_avg_revenue_total, country_bd_avg_revenue_total,
      country_revenue_total_absorb, country_core_revenue_total_absorb,
      country_noncore_revenue_total_absorb, country_bd_count_total_absorb,
      ad_revenue_total_absorb, ad_core_revenue_total_absorb,
      ad_noncore_revenue_total_absorb, ad_bd_count_total_absorb]
  · induction depts with
    | nil => rfl
    | cons d ds ih =>
      simp only [List.foldr]
      rw [ih]
      congr 1
      simp only [calculate_single_dept_metrics, dept_aggregated_revenue,
        dept_total_bd_count, dept_global_bd_avg_revenue, dept_ad_bd_avg_revenue,
        dept_country_bd_avg_revenue, dept_revenue_total_absorb, dept_core_revenue_absorb,
        dept_noncore_revenue_absorb, dept_count_absorb, dept_ad_bd_count_absorb]

-- Reconciliation lemmas for the three Global aggregate revenue metrics,
-- whose engine value is a rounded sum of the AD and non-AD pools while
-- the selector returns the whole in-period pool.

/-- On a cent-valued table, the Global 广告收入 detail rows sum to the
reported Global 广告收入. -/
theorem recon_global_plain (df : List Tx) (p : Int) (b : String) (hc : CentTable df) :
    round2 (sumAmount (get_metric_detail_data df "广告收入" "全球" p b))
      = summaryLookup (calculate_all_metrics df p b DEPARTMENTS_COUNTRY ALL_METRIC_ORDER)
          "全球" "广告收入" := by
  show round2 (sumAmount (df.filter (fun t => (t.period == p) && true)))
    = total_revenue_global df p
  have hs : sumAmount (df.filter (fun t => t.period == p))
      = sumAmount (df.filter (ad_condition p))
        + sumAmount (df.filter (non_ad_condition_total p)) := by
    rw [← sum_filter_split (fun t => t.period == p) (fun t => t.department == "AD") df]
    rfl
  rw [show df.filter (fun t => (t.period == p) && true) = df.filter (fun t => t.period == p)
      from List.filter_congr (fun t _ => Bool.and_true _),
    total_revenue_global, ad_revenue_total, country_revenue_total,
    round2_isCent (isCent_sum_filter hc (ad_condition p)),
    round2_isCent (isCent_sum_filter hc (non_ad_condition_total p)), hs]

/-- On a cent-valued table, the Global 广告收入——同业收入 detail rows sum
to the reported value. -/
theorem recon_global_core (df : List Tx) (p : Int) (b : String) (hc : CentTable df) :
    round2 (sumAmount (get_metric_detail_data df "广告收入——同业收入" "全球" p b))
      = summaryLookup (calculate_all_metrics df p b DEPARTMENTS_COUNTRY ALL_METRIC_ORDER)
          "全球" "广告收入——同业收入" := by
  show round2 (sumAmount (df.filter
      (fun t => (t.period == p) && (true && (t.ad_type == "同业广告")))))
    = total_core_revenue_global df p
  have hs : sumAmount (df.filter (fun t => (t.period == p) && (t.ad_type == "同业广告")))
      = sumAmount (df.filter (fun t => ad_condition p t && (t.ad_type == "同业广告")))
        + sumAmount (df.filter
            (fun t => non_ad_condition_total p t && (t.ad_type == "同业广告"))) := by
    rw [← sum_filter_split (fun t => (t.period == p) && (t.ad_type == "同业广告"))
      (fun t => t.department == "AD") df]
    congr 1
    · exact congrArg sumAmount (List.filter_congr (fun t _ => by
        simp only [ad_condition, target_period_condition]
        cases (t.period == p) <;> cases (t.ad_type == "同业广告")
          <;> cases (t.department == "AD") <;> rfl))
    · exact congrArg sumAmount (List.filter_congr (fun t _ => by
        simp only [non_ad_condition_total, target_period_condition]
        cases (t.period == p) <;> cases (t.ad_type == "同业广告")
          <;> cases (t.department == "AD") <;> rfl))
  rw [show df.filter (fun t => (t.period == p) && (true && (t.ad_type == "同业广告")))
        = df.filter (fun t => (t.period == p) && (t.ad_type == "同业广告"))
      from List.filter_congr (fun t _ => by rw [Bool.true_and]),
    total_core_revenue_global, ad_core_revenue_total, country_core_revenue_total,
    round2_isCent (isCent_sum_filter hc
      (fun t => ad_condition p t && (t.ad_type == "同业广告"))),
    round2_isCent (isCent_sum_filter hc
      (fun t => non_ad_condition_total p t && (t.ad_type == "同业广告"))), hs]

/-- On a cent-valued table, the Global 广告收入——异业收入 detail rows sum
to the reported value. -/
theorem recon_global_noncore (df : List Tx) (p : Int) (b : String) (hc : CentTable df) :
    round2 (sumAmount (get_metric_detail_data df "广告收入——异业收入" "全球" p b))
      = summaryLookup (calculate_all_metrics df p b DEPARTMENTS_COUNTRY ALL_METRIC_ORDER)
          "全球" "广告收入——异业收入" := by
  show round2 (sumAmount (df.filter
      (fun t => (t.period == p) && (true && (t.ad_type == "异业广告")))))
    = total_noncore_revenue_global df p
  have hs : sumAmount (df.filter (fun t => (t.period == p) && (t.ad_type == "异业广告")))
      = sumAmount (df.filter (fun t => ad_condition p t && (t.ad_type == "异业广告")))
        + sumAmount (df.filter
            (fun t => non_ad_condition_total p t && (t.ad_type == "异业广告"))) := by
    rw [← sum_filter_split (fun t => (t.period == p) && (t.ad_type == "异业广告"))
      (fun t => t.department == "AD") df]
    congr 1
    · exact congrArg sumAmount (List.filter_congr (fun t _ => by
        simp only [ad_condition, target_period_condition]
        cases (t.period == p) <;> cases (t.ad_type == "异业广告")
          <;> cases (t.department == "AD") <;> rfl))
    · exact congrArg sumAmount (List.filter_congr (fun t _ => by
        simp only [non_ad_condition_total, target_period_condition]
        cases (t.period == p) <;> cases (t.ad_type == "异业广告")
          <;> cases (t.department == "AD") <;> rfl))
  rw [show df.filter (fun t => (t.period == p) && (true && (t.ad_type == "异业广告")))
        = df.filter (fun t => (t.period == p) && (t.ad_type == "异业广告"))
      from List.filter_congr (fun t _ => by rw [Bool.true_and]),
    total_noncore_revenue_global, ad_noncore_revenue_total, country_noncore_revenue_total,
    round2_isCent (isCent_sum_filter hc
      (fun t => ad_condition p t && (t.ad_type == "异业广告"))),
    round2_isCent (isCent_sum_filter hc
      (fun t => non_ad_condition_total p t && (t.ad_type == "异业广告"))), hs]

-- Claim theorems.

/-- Claim C7: transactions outside the target period contribute nothing:
the summary computed from the full table coincides, row for row, with the
summary computed from the rows whose period equals the target period. -/
theorem offperiod_rows_contribute_nothing (df : List Tx) (p : Int) (b : String)
    (depts ord : List String) :
    calculate_all_metrics df p b depts ord
      = calculate_all_metrics (df.filter (fun t => t.period == p)) p b depts ord := by
  simp only [calculate_all_metrics, data_values_period_absorb]

/-- Claim C10: every row returned by get_metric_detail_data is a row of
the input table whose period equals the target period; the selector never
fabricates, modifies, or returns off-period rows. -/
theorem detail_rows_are_target_period_rows (df : List Tx) (m r : String)
    (p : Int) (b : String) :
    ∀ t ∈ get_metric_detail_data df m r p b, t ∈ df ∧ t.period = p := by
  unfold get_metric_detail_data
  split_ifs <;> intro t ht <;>
    first
    | exact absurd ht (List.not_mem_nil t)
    | (refine ⟨List.mem_of_mem_filter ht, ?_⟩
       have hp := List.of_mem_filter ht
       first
       | (replace hp := revenue_filter_imp _ _ _ hp
          simp only [Bool.and_eq_true, Bool.or_eq_true, beq_iff_eq] at hp
          tauto)
       | (simp only [Bool.and_eq_true, Bool.or_eq_true, beq_iff_eq] at hp
          tauto))

/-- Claim C10 witness: a concrete selected row is an in-period input row. -/
theorem detail_rows_are_target_period_rows_witness :
    txAU ∈ get_metric_detail_data [txAU] "广告收入" "AU" 202509 "外卖BD"
      ∧ (txAU ∈ [txAU] ∧ txAU.period = 202509) :=
  ⟨by decide,
   detail_rows_are_target_period_rows [txAU] "广告收入" "AU" 202509 "外卖BD" txAU
     (by decide)⟩

/-- Claim C8: a metric name outside the recognized enumeration makes the
selector return the empty table, for every region, instead of raising. -/
theorem unrecognized_metric_returns_empty (df : List Tx) (m r : String)
    (p : Int) (b : String) (h : m ∉ ALL_METRIC_ORDER) :
    get_metric_detail_data df m r p b = [] := by
  have h9 : m ∉ ALL_METRIC_ORDER.take 9 := fun hm => h (List.mem_of_mem_take hm)
  have hsub : ∀ L : List String, (∀ x ∈ L, x ∈ ALL_METRIC_ORDER) → m ∉ L :=
    fun L hL hm => h (hL m hm)
  have hne : ∀ x ∈ ALL_METRIC_ORDER, m ≠ x := fun x hx he => h (he ▸ hx)
  unfold get_metric_detail_data
  split_ifs <;>
    first
    | rfl
    | exact absurd ‹m ∈ ALL_METRIC_ORDER.take 9› h9
    | exact absurd ‹m ∈ ["广告收入", "广告收入——同业收入", "广告收入——异业收入"]›
        (hsub _ (by decide))
    | exact absurd ‹m ∈ ["广告部：广告收入", "广告部—同业收入", "广告部—异业收入"]›
        (hsub _ (by decide))
    | exact absurd ‹m ∈ ["国家：广告收入", "国家-同业收入", "国家-异业收入"]›
        (hsub _ (by decide))
    | exact absurd ‹m ∈ ["国家BD人数（实际为有售卖的BD）", "全球BD人数", "广告部BD人数"]›
        (hsub _ (by decide))
    | exact absurd ‹m ∈ ["全球BD：人均广告收入", "广告部BD：人均广告收入", "国家BD：人均广告收入"]›
        (hsub _ (by decide))
    | exact absurd ‹m = "广告部BD人数"› (hne _ (by decide))
    | exact absurd ‹m = "国家BD人数（实际为有售卖的BD）"› (hne _ (by decide))
    | exact absurd ‹m = "全球BD人数"› (hne _ (by decide))

/-- Claim C8 witness: a bogus metric name yields the empty detail set. -/
theorem unrecognized_metric_returns_empty_witness :
    "bogus" ∉ ALL_METRIC_ORDER
      ∧ get_metric_detail_data [txAU] "bogus" "AU" 202509 "外卖BD" = [] :=
  ⟨by decide,
   unrecognized_metric_returns_empty [txAU] "bogus" "AU" 202509 "外卖BD" (by decide)⟩

/-- Claim C9 counterexample: for the Global ad-dept productivity metric
the selector returns the whole in-period table, not the rows of the
denominator filter (department == AD): on a one-row table whose only row
is an AU-department row, the claimed filter is empty yet the selector
returns the row. -/
theorem productivity_detail_counterexample :
    get_metric_detail_data [txAU] "广告部BD：人均广告收入" "全球" 202509 "外卖BD"
        ≠ [txAU].filter (fun t => (t.period == 202509) && (t.department == "AD"))
      ∧ get_metric_detail_data [txAU] "广告部BD：人均广告收入" "全球" 202509 "外卖BD"
        = [txAU] := by
  constructor
  · decide
  · decide

/-- Claim C9 as amended: for each of the three productivity metrics the
selector returns all in-period rows in the Global case (no department
narrowing at all), and the rows of the chosen department in the country
case — the region's own revenue detail, not the metric's denominator
filter. -/
theorem productivity_detail_selection (df : List Tx) (p : Int) (b : String)
    (m r : String)
    (hm : m ∈ ["全球BD：人均广告收入", "广告部BD：人均广告收入", "国家BD：人均广告收入"])
    (hr : r ≠ "全球") :
    get_metric_detail_data df m "全球" p b = df.filter (fun t => t.period == p)
      ∧ get_metric_detail_data df m r p b
        = df.filter (fun t => (t.period == p) && (t.department == r)) := by
  constructor
  · fin_cases hm <;> rfl
  · fin_cases hm <;>
      (unfold get_metric_detail_data
       rw [if_neg hr])
    <;> rfl

/-- Claim C1 counterexample: reconciliation fails as stated: on the
single-AU-transaction table, the AU detail rows for 广告收入 sum to 100
while the summary reports 200. -/
theorem revenue_reconciliation_counterexample :
    round2 (sumAmount (get_metric_detail_data [txAU] "广告收入" "AU" 202509 "外卖BD")) = 100
      ∧ summaryLookup
          (calculate_all_metrics [txAU] 202509 "外卖BD" DEPARTMENTS_COUNTRY ALL_METRIC_ORDER)
          "AU" "广告收入" = 200
      ∧ round2 (sumAmount (get_metric_detail_data [txAU] "广告收入" "AU" 202509 "外卖BD"))
        ≠ summaryLookup
            (calculate_all_metrics [txAU] 202509 "外卖BD" DEPARTMENTS_COUNTRY ALL_METRIC_ORDER)
            "AU" "广告收入" := by
  have ha : round2 (sumAmount (get_metric_detail_data [txAU] "广告收入" "AU" 202509 "外卖BD"))
      = 100 := by
    rw [show sumAmount (get_metric_detail_data [txAU] "广告收入" "AU" 202509 "外卖BD") = 100
      from by show (100 : ℚ) + 0 = 100; norm_num]
    exact round2_isCent ⟨10000, by norm_num⟩
  have hb : summaryLookup
      (calculate_all_metrics [txAU] 202509 "外卖BD" DEPARTMENTS_COUNTRY ALL_METRIC_ORDER)
      "AU" "广告收入" = 200 := by
    show dept_aggregated_revenue "AU" [txAU] 202509 = 200
    have h100 : dept_revenue_total "AU" [txAU] 202509 = 100 := by
      rw [dept_revenue_total,
        show sumAmount (List.filter (dept_condition "AU" 202509) [txAU]) = 100
          from by show (100 : ℚ) + 0 = 100; norm_num]
      exact round2_isCent ⟨10000, by norm_num⟩
    rw [dept_aggregated_revenue, h100, show (100 : ℚ) * 2 = 200 from by norm_num]
    exact round2_isCent ⟨20000, by norm_num⟩
  refine ⟨ha, hb, ?_⟩
  rw [ha, hb]
  norm_num

/-- Claim C1 as amended: on a cent-valued table all nine Global revenue
metrics reconcile with their detail rows; in the country case the six
single-department metrics reconcile, while the three aggregate metrics
report exactly twice the rounded sum of their detail rows. -/
theorem revenue_reconciliation (df : List Tx) (p : Int) (b : String) (hc : CentTable df) :
    (∀ m ∈ ["广告收入", "广告收入——同业收入", "广告收入——异业收入",
            "广告部：广告收入", "广告部—同业收入", "广告部—异业收入",
            "国家：广告收入", "国家-同业收入", "国家-异业收入"],
      round2 (sumAmount (get_metric_detail_data df m "全球" p b))
        = summaryLookup (calculate_all_metrics df p b DEPARTMENTS_COUNTRY ALL_METRIC_ORDER)
            "全球" m)
      ∧ (∀ r ∈ DEPARTMENTS_COUNTRY,
          ∀ m ∈ ["广告部：广告收入", "广告部—同业收入", "广告部—异业收入",
                 "国家：广告收入", "国家-同业收入", "国家-异业收入"],
            round2 (sumAmount (get_metric_detail_data df m r p b))
              = summaryLookup
                  (calculate_all_metrics df p b DEPARTMENTS_COUNTRY ALL_METRIC_ORDER) r m)
      ∧ (∀ r ∈ DEPARTMENTS_COUNTRY,
          ∀ m ∈ ["广告收入", "广告收入——同业收入", "广告收入——异业收入"],
            2 * round2 (sumAmount (get_metric_detail_data df m r p b))
              = summaryLookup
                  (calculate_all_metrics df p b DEPARTMENTS_COUNTRY ALL_METRIC_ORDER) r m) := by
  refine ⟨?_, ?_, ?_⟩
  · intro m hm
    fin_cases hm <;>
      first
      | exact recon_global_plain df p b hc
      | exact recon_global_core df p b hc
      | exact recon_global_noncore df p b hc
      | rfl
  · intro r hr m hm
    fin_cases hr <;> fin_cases hm <;> rfl
  · intro r hr m hm
    fin_cases hr <;> fin_cases hm <;> exact (round2_double _).symm

/-- Claim C1 witness: reconciliation at a concrete (region, metric). -/
theorem revenue_reconciliation_witness :
    CentTable [txAU]
      ∧ ("AU" : String) ∈ DEPARTMENTS_COUNTRY
      ∧ ("广告部：广告收入" : String)
          ∈ ["广告部：广告收入", "广告部—同业收入", "广告部—异业收入",
             "国家：广告收入", "国家-同业收入", "国家-异业收入"]
      ∧ round2 (sumAmount (get_metric_detail_data [txAU] "广告部：广告收入" "AU" 202509 "外卖BD"))
        = summaryLookup
            (calculate_all_metrics [txAU] 202509 "外卖BD" DEPARTMENTS_COUNTRY ALL_METRIC_ORDER)
            "AU" "广告部：广告收入" := by
  have hc : CentTable [txAU] := by
    intro t ht
    rw [List.mem_singleton] at ht
    subst ht
    exact ⟨10000, by norm_num [txAU]⟩
  exact ⟨hc, by decide, by decide,
    (revenue_reconciliation [txAU] 202509 "外卖BD" hc).2.1 "AU" (by decide)
      "广告部：广告收入" (by decide)⟩

/-- Claim C2: evaluating the assembled summary at the failing input: with
the full country list each region block carries 20 rows (the five
headcount/productivity names are appended twice), so the table has 180
records instead of the documented (1 + 8) x 15 = 135, and
(region, metric) is not a unique key. -/
theorem summary_table_duplicate_rows :
    (calculate_all_metrics [] 202509 "外卖BD" DEPARTMENTS_COUNTRY ALL_METRIC_ORDER).length = 180
      ∧ (calculate_all_metrics [] 202509 "外卖BD" DEPARTMENTS_COUNTRY ALL_METRIC_ORDER).length
        ≠ (1 + DEPARTMENTS_COUNTRY.length) * 15
      ∧ ((calculate_all_metrics [] 202509 "外卖BD" DEPARTMENTS_COUNTRY ALL_METRIC_ORDER).countP
          (fun row => row.region == "全球" && row.metric == "全球BD人数")) = 2
      ∧ ((calculate_all_metrics [] 202509 "外卖BD" DEPARTMENTS_COUNTRY ALL_METRIC_ORDER).countP
          (fun row => row.region == "AU" && row.metric == "广告部BD人数")) = 2 :=
  ⟨by decide, by decide, by decide, by decide⟩

/-- Claim C5: in the country case the aggregate revenue metrics are the
doubled single-department figures, and the single-AU-transaction scenario
reports exactly the values the spec lists. -/
theorem country_total_revenue_doubling (df : List Tx) (p : Int) (b : String) :
    (∀ r ∈ DEPARTMENTS_COUNTRY,
      summaryLookup (calculate_all_metrics df p b DEPARTMENTS_COUNTRY ALL_METRIC_ORDER)
          r "广告收入"
        = 2 * summaryLookup (calculate_all_metrics df p b DEPARTMENTS_COUNTRY ALL_METRIC_ORDER)
            r "国家：广告收入"
      ∧ summaryLookup (calculate_all_metrics df p b DEPARTMENTS_COUNTRY ALL_METRIC_ORDER)
          r "广告收入——同业收入"
        = 2 * summaryLookup (calculate_all_metrics df p b DEPARTMENTS_COUNTRY ALL_METRIC_ORDER)
            r "国家-同业收入"
      ∧ summaryLookup (calculate_all_metrics df p b DEPARTMENTS_COUNTRY ALL_METRIC_ORDER)
          r "广告收入——异业收入"
        = 2 * summaryLookup (calculate_all_metrics df p b DEPARTMENTS_COUNTRY ALL_METRIC_ORDER)
            r "国家-异业收入")
    ∧ summaryLookup (calculate_all_metrics [txAU] 202509 "外卖BD" DEPARTMENTS_COUNTRY ALL_METRIC_ORDER)
        "AU" "国家：广告收入" = 100
    ∧ summaryLookup (calculate_all_metrics [txAU] 202509 "外卖BD" DEPARTMENTS_COUNTRY ALL_METRIC_ORDER)
        "AU" "国家-同业收入" = 100
    ∧ summaryLookup (calculate_all_metrics [txAU] 202509 "外卖BD" DEPARTMENTS_COUNTRY ALL_METRIC_ORDER)
        "AU" "国家-异业收入" = 0
    ∧ summaryLookup (calculate_all_metrics [txAU] 202509 "外卖BD" DEPARTMENTS_COUNTRY ALL_METRIC_ORDER)
        "AU" "广告收入" = 200
    ∧ summaryLookup (calculate_all_metrics [txAU] 202509 "外卖BD" DEPARTMENTS_COUNTRY ALL_METRIC_ORDER)
        "AU" "国家BD人数（实际为有售卖的BD）" = 1
    ∧ summaryLookup (calculate_all_metrics [txAU] 202509 "外卖BD" DEPARTMENTS_COUNTRY ALL_METRIC_ORDER)
        "AU" "全球BD人数" = 1
    ∧ summaryLookup (calculate_all_metrics [txAU] 202509 "外卖BD" DEPARTMENTS_COUNTRY ALL_METRIC_ORDER)
        "AU" "国家BD：人均广告收入" = 100 := by
  have hsum : sumAmount (List.filter (dept_condition "AU" 202509) [txAU]) = 100 := by
    show (100 : ℚ) + 0 = 100
    norm_num
  have h100 : dept_revenue_total "AU" [txAU] 202509 = 100 := by
    rw [dept_revenue_total, hsum]
    exact round2_isCent ⟨10000, by norm_num⟩
  have hcore : dept_core_revenue "AU" [txAU] 202509 = 100 := by
    rw [dept_core_revenue]
    rw [show sumAmount (List.filter
        (fun t => dept_condition "AU" 202509 t && (t.ad_type == "同业广告")) [txAU]) = 100
      from by show (100 : ℚ) + 0 = 100; norm_num]
    exact round2_isCent ⟨10000, by norm_num⟩
  refine ⟨fun r hr => ?_, ?_, ?_, ?_, ?_, ?_, ?_, ?_⟩
  · fin_cases hr <;> exact ⟨round2_double _, round2_double _, round2_double _⟩
  · exact h100
  · exact hcore
  · show round2 (sumAmount (List.filter
      (fun t => dept_condition "AU" 202509 t && (t.ad_type == "异业广告")) [txAU])) = 0
    rw [show sumAmount (List.filter
        (fun t => dept_condition "AU" 202509 t && (t.ad_type == "异业广告")) [txAU]) = 0
      from rfl]
    exact round2_isCent isCent_zero
  · show dept_aggregated_revenue "AU" [txAU] 202509 = 200
    rw [dept_aggregated_revenue, h100, show (100 : ℚ) * 2 = 200 from by norm_num]
    exact round2_isCent ⟨20000, by norm_num⟩
  · show ((dept_count "AU" [txAU] 202509 "外卖BD" : ℕ) : ℚ) = 1
    rw [show dept_count "AU" [txAU] 202509 "外卖BD" = 1 from by decide]
    exact Nat.cast_one
  · show ((dept_total_bd_count "AU" [txAU] 202509 "外卖BD" : ℕ) : ℚ) = 1
    rw [show dept_total_bd_count "AU" [txAU] 202509 "外卖BD" = 1 from by decide]
    exact Nat.cast_one
  · show finalizeAvg (dept_country_bd_avg_revenue "AU" [txAU] 202509 "外卖BD") = 100
    rw [dept_country_bd_avg_revenue,
      if_pos (by decide : dept_count "AU" [txAU] 202509 "外卖BD" > 0), h100,
      show dept_count "AU" [txAU] 202509 "外卖BD" = 1 from by decide,
      show (100 : ℚ) / ((1 : ℕ) : ℚ) = 100 from by norm_num, finalizeAvg,
      if_neg (by norm_num : ¬(100 : ℚ) = 0)]
    exact round2_isCent ⟨10000, by norm_num⟩

/-- Claim C5 witness: the doubling law instantiated at region AU on the
scenario table. -/
theorem country_total_revenue_doubling_witness :
    ("AU" : String) ∈ DEPARTMENTS_COUNTRY
      ∧ (summaryLookup
            (calculate_all_metrics [txAU] 202509 "外卖BD" DEPARTMENTS_COUNTRY ALL_METRIC_ORDER)
            "AU" "广告收入"
          = 2 * summaryLookup
              (calculate_all_metrics [txAU] 202509 "外卖BD" DEPARTMENTS_COUNTRY ALL_METRIC_ORDER)
              "AU" "国家：广告收入"
        ∧ summaryLookup
            (calculate_all_metrics [txAU] 202509 "外卖BD" DEPARTMENTS_COUNTRY ALL_METRIC_ORDER)
            "AU" "广告收入——同业收入"
          = 2 * summaryLookup
              (calculate_all_metrics [txAU] 202509 "外卖BD" DEPARTMENTS_COUNTRY ALL_METRIC_ORDER)
              "AU" "国家-同业收入"
        ∧ summaryLookup
            (calculate_all_metrics [txAU] 202509 "外卖BD" DEPARTMENTS_COUNTRY ALL_METRIC_ORDER)
            "AU" "广告收入——异业收入"
          = 2 * summaryLookup
              (calculate_all_metrics [txAU] 202509 "外卖BD" DEPARTMENTS_COUNTRY ALL_METRIC_ORDER)
              "AU" "国家-异业收入") :=
  ⟨by decide,
   (country_total_revenue_doubling [txAU] 202509 "外卖BD").1 "AU" (by decide)⟩

/-- Claim C3 counterexample: on the single AD-department transaction
attributed to JP, the summary reports 0 for ad-dept revenue of region JP
while the sum over the rows with department == AD and country == JP is
50, so the claimed filter semantics is false on the code. -/
theorem ad_dept_attribution_counterexample :
    summaryLookup
        (calculate_all_metrics [txJP] 202509 "外卖BD" DEPARTMENTS_COUNTRY ALL_METRIC_ORDER)
        "JP" "广告部：广告收入" = 0
      ∧ round2 (sumAmount ([txJP].filter
          (fun t => ((t.period == 202509) && (t.department == "AD"))
            && (t.country == "JP")))) = 50
      ∧ summaryLookup
          (calculate_all_metrics [txJP] 202509 "外卖BD" DEPARTMENTS_COUNTRY ALL_METRIC_ORDER)
          "JP" "广告部：广告收入"
        ≠ round2 (sumAmount ([txJP].filter
            (fun t => ((t.period == 202509) && (t.department == "AD"))
              && (t.country == "JP")))) := by
  have h0 : summaryLookup
      (calculate_all_metrics [txJP] 202509 "外卖BD" DEPARTMENTS_COUNTRY ALL_METRIC_ORDER)
      "JP" "广告部：广告收入" = 0 := by
    show round2 (sumAmount (List.filter (dept_condition "JP" 202509) [txJP])) = 0
    rw [show sumAmount (List.filter (dept_condition "JP" 202509) [txJP]) = 0 from rfl]
    exact round2_isCent isCent_zero
  have h50 : round2 (sumAmount ([txJP].filter
      (fun t => ((t.period == 202509) && (t.department == "AD"))
        && (t.country == "JP")))) = 50 := by
    rw [show sumAmount ([txJP].filter
        (fun t => ((t.period == 202509) && (t.department == "AD"))
          && (t.country == "JP"))) = 50 from by show (50 : ℚ) + 0 = 50; norm_num]
    exact round2_isCent ⟨5000, by norm_num⟩
  refine ⟨h0, h50, ?_⟩
  rw [h0, h50]
  norm_num

/-- Claim C3 as amended: for every country region the reported
广告部：广告收入 is the sum over rows with the region's own department
code (numerically identical to 国家：广告收入), not an AD/country filter;
the AD-to-JP transaction contributes to the Global ad-dept revenue but to
neither JP-region revenue metric. -/
theorem country_ad_dept_revenue_mirror (df : List Tx) (p : Int) (b : String) :
    (∀ r ∈ DEPARTMENTS_COUNTRY,
      summaryLookup (calculate_all_metrics df p b DEPARTMENTS_COUNTRY ALL_METRIC_ORDER)
          r "广告部：广告收入"
        = round2 (sumAmount (df.filter
            (fun t => (t.period == p) && (t.department == r))))
      ∧ summaryLookup (calculate_all_metrics df p b DEPARTMENTS_COUNTRY ALL_METRIC_ORDER)
          r "广告部：广告收入"
        = summaryLookup (calculate_all_metrics df p b DEPARTMENTS_COUNTRY ALL_METRIC_ORDER)
            r "国家：广告收入")
    ∧ summaryLookup
        (calculate_all_metrics [txJP] 202509 "外卖BD" DEPARTMENTS_COUNTRY ALL_METRIC_ORDER)
        "全球" "广告部：广告收入" = 50
    ∧ summaryLookup
        (calculate_all_metrics [txJP] 202509 "外卖BD" DEPARTMENTS_COUNTRY ALL_METRIC_ORDER)
        "JP" "广告部：广告收入" = 0
    ∧ summaryLookup
        (calculate_all_metrics [txJP] 202509 "外卖BD" DEPARTMENTS_COUNTRY ALL_METRIC_ORDER)
        "JP" "国家：广告收入" = 0 := by
  have hzero : round2 (sumAmount (List.filter (dept_condition "JP" 202509) [txJP])) = 0 := by
    rw [show sumAmount (List.filter (dept_condition "JP" 202509) [txJP]) = 0 from rfl]
    exact round2_isCent isCent_zero
  refine ⟨fun r hr => ?_, ?_, hzero, hzero⟩
  · fin_cases hr <;> exact ⟨rfl, rfl⟩
  · show ad_revenue_total [txJP] 202509 = 50
    rw [ad_revenue_total]
    rw [show sumAmount (List.filter (ad_condition 202509) [txJP]) = 50
      from by show (50 : ℚ) + 0 = 50; norm_num]
    exact round2_isCent ⟨5000, by norm_num⟩

/-- Claim C3 witness: the amended per-region rule instantiated at JP. -/
theorem country_ad_dept_revenue_mirror_witness :
    ("JP" : String) ∈ DEPARTMENTS_COUNTRY
      ∧ (summaryLookup
            (calculate_all_metrics [txJP] 202509 "外卖BD" DEPARTMENTS_COUNTRY ALL_METRIC_ORDER)
            "JP" "广告部：广告收入"
          = round2 (sumAmount ([txJP].filter
              (fun t => (t.period == 202509) && (t.department == "JP"))))
        ∧ summaryLookup
            (calculate_all_metrics [txJP] 202509 "外卖BD" DEPARTMENTS_COUNTRY ALL_METRIC_ORDER)
            "JP" "广告部：广告收入"
          = summaryLookup
              (calculate_all_metrics [txJP] 202509 "外卖BD" DEPARTMENTS_COUNTRY ALL_METRIC_ORDER)
              "JP" "国家：广告收入") :=
  ⟨by decide,
   (country_ad_dept_revenue_mirror [txJP] 202509 "外卖BD").1 "JP" (by decide)⟩

/-- The zero-denominator guard composed with the dict finalization step:
whenever the count is zero the reported quotient is zero. -/
theorem guard_zero (n : ℕ) (x : ℚ) (h : (n : ℚ) = 0) :
    finalizeAvg (if n > 0 then x else 0) = 0 := by
  have hn : n = 0 := Nat.cast_eq_zero.mp h
  subst hn
  simp [finalizeAvg]

/-- Claim C4: for Global and every country in the country list, the
reported 全球BD人数 equals 国家BD人数 plus 广告部BD人数, as a plain sum of
the two distinct-salesperson counts. -/
theorem total_bd_count_is_plain_sum (df : List Tx) (p : Int) (b : String) :
    ∀ r ∈ "全球" :: DEPARTMENTS_COUNTRY,
      summaryLookup (calculate_all_metrics df p b DEPARTMENTS_COUNTRY ALL_METRIC_ORDER)
          r "全球BD人数"
        = summaryLookup (calculate_all_metrics df p b DEPARTMENTS_COUNTRY ALL_METRIC_ORDER)
            r "国家BD人数（实际为有售卖的BD）"
          + summaryLookup (calculate_all_metrics df p b DEPARTMENTS_COUNTRY ALL_METRIC_ORDER)
              r "广告部BD人数" := by
  intro r hr
  fin_cases hr <;> exact Nat.cast_add _ _

/-- Claim C4 witness: headcount additivity at a concrete input. -/
theorem total_bd_count_is_plain_sum_witness :
    ("AU" : String) ∈ "全球" :: DEPARTMENTS_COUNTRY
      ∧ summaryLookup
            (calculate_all_metrics [txAU] 202509 "外卖BD" DEPARTMENTS_COUNTRY ALL_METRIC_ORDER)
            "AU" "全球BD人数"
        = summaryLookup
              (calculate_all_metrics [txAU] 202509 "外卖BD" DEPARTMENTS_COUNTRY ALL_METRIC_ORDER)
              "AU" "国家BD人数（实际为有售卖的BD）"
            + summaryLookup
                (calculate_all_metrics [txAU] 202509 "外卖BD" DEPARTMENTS_COUNTRY ALL_METRIC_ORDER)
                "AU" "广告部BD人数" :=
  ⟨by decide,
   total_bd_count_is_plain_sum [txAU] 202509 "外卖BD" "AU" (by decide)⟩

/-- Claim C6: for Global and every country, each productivity quotient is
reported as 0 whenever its denominator headcount is 0 (the division is
guarded, never raised); in particular a zero 广告部BD人数 forces a zero
广告部BD：人均广告收入 regardless of the revenue numerator. -/
theorem productivity_zero_guard (df : List Tx) (p : Int) (b : String) :
    ∀ r ∈ "全球" :: DEPARTMENTS_COUNTRY,
      (summaryLookup (calculate_all_metrics df p b DEPARTMENTS_COUNTRY ALL_METRIC_ORDER)
            r "广告部BD人数" = 0
        → summaryLookup (calculate_all_metrics df p b DEPARTMENTS_COUNTRY ALL_METRIC_ORDER)
            r "广告部BD：人均广告收入" = 0)
      ∧ (summaryLookup (calculate_all_metrics df p b DEPARTMENTS_COUNTRY ALL_METRIC_ORDER)
            r "全球BD人数" = 0
        → summaryLookup (calculate_all_metrics df p b DEPARTMENTS_COUNTRY ALL_METRIC_ORDER)
            r "全球BD：人均广告收入" = 0)
      ∧ (summaryLookup (calculate_all_metrics df p b DEPARTMENTS_COUNTRY ALL_METRIC_ORDER)
            r "国家BD人数（实际为有售卖的BD）" = 0
        → summaryLookup (calculate_all_metrics df p b DEPARTMENTS_COUNTRY ALL_METRIC_ORDER)
            r "国家BD：人均广告收入" = 0) := by
  intro r hr
  fin_cases hr <;>
    exact ⟨fun h => guard_zero _ _ h, fun h => guard_zero _ _ h,
      fun h => guard_zero _ _ h⟩

/-- Claim C6 witness: on the empty table every headcount is 0 and every
quotient is reported as 0. -/
theorem productivity_zero_guard_witness :
    ("全球" : String) ∈ "全球" :: DEPARTMENTS_COUNTRY
      ∧ ((summaryLookup (calculate_all_metrics [] 202509 "外卖BD" DEPARTMENTS_COUNTRY ALL_METRIC_ORDER)
            "全球" "广告部BD人数" = 0
        → summaryLookup (calculate_all_metrics [] 202509 "外卖BD" DEPARTMENTS_COUNTRY ALL_METRIC_ORDER)
            "全球" "广告部BD：人均广告收入" = 0)
      ∧ (summaryLookup (calculate_all_metrics [] 202509 "外卖BD" DEPARTMENTS_COUNTRY ALL_METRIC_ORDER)
            "全球" "全球BD人数" = 0
        → summaryLookup (calculate_all_metrics [] 202509 "外卖BD" DEPARTMENTS_COUNTRY ALL_METRIC_ORDER)
            "全球" "全球BD：人均广告收入" = 0)
      ∧ (summaryLookup (calculate_all_metrics [] 202509 "外卖BD" DEPARTMENTS_COUNTRY ALL_METRIC_ORDER)
            "全球" "国家BD人数（实际为有售卖的BD）" = 0
        → summaryLookup (calculate_all_metrics [] 202509 "外卖BD" DEPARTMENTS_COUNTRY ALL_METRIC_ORDER)
            "全球" "国家BD：人均广告收入" = 0)) :=
  ⟨by decide,
   productivity_zero_guard [] 202509 "外卖BD" "全球" (by decide)⟩

/-- Claim C9 witness: the amended selection rule at a concrete input. -/
theorem productivity_detail_selection_witness :
    ("广告部BD：人均广告收入"
        ∈ ["全球BD：人均广告收入", "广告部BD：人均广告收入", "国家BD：人均广告收入"])
      ∧ ("AU" : String) ≠ "全球"
      ∧ (get_metric_detail_data [txAU] "广告部BD：人均广告收入" "全球" 202509 "外卖BD"
          = [txAU].filter (fun t => t.period == 202509)
        ∧ get_metric_detail_data [txAU] "广告部BD：人均广告收入" "AU" 202509 "外卖BD"
          = [txAU].filter (fun t => (t.period == 202509) && (t.department == "AU"))) :=
  ⟨by decide, by decide,
   productivity_detail_selection [txAU] 202509 "外卖BD" "广告部BD：人均广告收入" "AU"
     (by decide) (by decide)⟩
